import Mathlib

/-!
# Verification of the Claude HITL template core

Shallow embedding of the core logic of `claude_hitl_template`:

* `src/claude_hitl_template/agent.py` — the `ClaudeSessionActor`
  (message-stream classification in `_collect_response`, and the
  `connect` / `query` / `disconnect` state transitions);
* `src/claude_hitl_template/query.py` — the `run_conversation`
  orchestrator (bounded retry, iteration cap, auto-complete policy);
* `src/claude_hitl_template/config.py` — `load_kodosumi_config`.

External effects (the Ray runtime, the Claude SDK subprocess, the
Kodosumi tracer) are modelled by explicit oracles: each call that the
Python code awaits is a value scripted by the environment, and the
observable behaviour (outcome, trace of connect attempts, teardowns and
human-input pauses) is computed as a pure function of those scripts.
-/

namespace HitlTemplate

/-! ## Message stream classification (`agent.py`, `_collect_response`)

The Claude SDK delivers a per-turn stream of messages.  We embed the
message/block taxonomy that `_collect_response` dispatches on.  Payloads
(text, tool inputs, system data) are opaque strings. -/

/-- A content block inside an `AssistantMessage`.  `otherBlock` stands
for any block type that is none of the four `isinstance` branches in
`_collect_response`. -/
inductive ContentBlock where
  | text (t : String)
  | thinking (content : String) (signature : String)
  | toolUse (name : String) (id : String) (input : String)
  | toolResult (toolUseId : String) (content : String) (isError : Option Bool)
  | otherBlock
deriving DecidableEq, Repr

/-- A message from `client.receive_response()`.  `result` is the
terminal `ResultMessage`; `other` stands for any message type that is
none of the `isinstance` branches in `_collect_response`. -/
inductive SDKMessage where
  | assistant (blocks : List ContentBlock)
  | system (subtype : String) (data : String)
  | result
  | other
deriving DecidableEq, Repr

/-- Turn status: `"ready"` (stream exhausted) or `"complete"`
(`ResultMessage` seen). -/
inductive TurnStatus where
  | ready
  | complete
deriving DecidableEq, Repr

/-- An entry of `user_messages`: always `{"type": "text", "content": …}`
in the source, so only the content is recorded. -/
structure UserMsg where
  content : String
deriving DecidableEq, Repr

/-- An entry of `context_messages`: the tagged union built by
`_collect_response`. -/
inductive CtxMsg where
  | system (subtype : String) (data : String)
  | thinking (content : String) (signature : String)
  | toolUse (name : String) (id : String) (input : String)
  | toolResult (toolUseId : String) (content : String) (isError : Bool)
deriving DecidableEq, Repr

/-- The dictionary returned by `_collect_response` (and hence by
`connect` and `query`). -/
structure TurnResult where
  status : TurnStatus
  userMessages : List UserMsg
  contextMessages : List CtxMsg
deriving DecidableEq, Repr

/-- The inner `for block in message.content` loop of `_collect_response`:
appends each recognized block to its channel, drops the rest. -/
def processBlocks : List ContentBlock → List UserMsg → List CtxMsg →
    List UserMsg × List CtxMsg
  | [], us, cs => (us, cs)
  | .text t :: rest, us, cs =>
      processBlocks rest (us ++ [⟨t⟩]) cs
  | .thinking c sg :: rest, us, cs =>
      processBlocks rest us (cs ++ [.thinking c sg])
  | .toolUse n i inp :: rest, us, cs =>
      processBlocks rest us (cs ++ [.toolUse n i inp])
  | .toolResult tid c e :: rest, us, cs =>
      processBlocks rest us (cs ++ [.toolResult tid c (e.getD false)])
  | .otherBlock :: rest, us, cs =>
      processBlocks rest us cs

/-- The `async for message in self.client.receive_response()` loop of
`_collect_response`, with the two channel accumulators explicit.  A
`ResultMessage` returns `"complete"` at once; stream exhaustion returns
`"ready"`. -/
def collectResponse : List SDKMessage → List UserMsg → List CtxMsg → TurnResult
  | [], us, cs => ⟨.ready, us, cs⟩
  | .result :: _, us, cs => ⟨.complete, us, cs⟩
  | .system st d :: rest, us, cs =>
      collectResponse rest us (cs ++ [.system st d])
  | .assistant bs :: rest, us, cs =>
      let p := processBlocks bs us cs
      collectResponse rest p.1 p.2
  | .other :: rest, us, cs => collectResponse rest us cs

/-- The whole of `_collect_response` on a per-turn stream, starting from
empty channels. -/
def classify (stream : List SDKMessage) : TurnResult :=
  collectResponse stream [] []

/-- The user-facing entries a single block list contributes, in source
order (the `TextBlock` branch of `_collect_response`). -/
def blocksUser : List ContentBlock → List UserMsg
  | [] => []
  | .text t :: rest => ⟨t⟩ :: blocksUser rest
  | _ :: rest => blocksUser rest

/-- The context entries a single block list contributes, in source order
(the `ThinkingBlock` / `ToolUseBlock` / `ToolResultBlock` branches of
`_collect_response`). -/
def blocksCtx : List ContentBlock → List CtxMsg
  | [] => []
  | .thinking c sg :: rest => .thinking c sg :: blocksCtx rest
  | .toolUse n i inp :: rest => .toolUse n i inp :: blocksCtx rest
  | .toolResult tid c e :: rest => .toolResult tid c (e.getD false) :: blocksCtx rest
  | _ :: rest => blocksCtx rest

/-- Modelled from the spec (§4.1 event taxonomy): the user-facing channel
expected for a stream — the plain-text output of every assistant event,
in source order. -/
def expectedUserChannel : List SDKMessage → List UserMsg
  | [] => []
  | .assistant bs :: rest => blocksUser bs ++ expectedUserChannel rest
  | _ :: rest => expectedUserChannel rest

/-- Modelled from the spec (§4.1 event taxonomy): the context channel
expected for a stream — thinking / tool_use / tool_result entries of
assistant events and system events, in source order. -/
def expectedContextChannel : List SDKMessage → List CtxMsg
  | [] => []
  | .assistant bs :: rest => blocksCtx bs ++ expectedContextChannel rest
  | .system st d :: rest => .system st d :: expectedContextChannel rest
  | _ :: rest => expectedContextChannel rest


/-! ## Actor state (`agent.py`, `ClaudeSessionActor`)

The fields of the actor touched by `connect` / `query` / `disconnect`:
`self.client` (here just "is non-null"), `self.connected`,
`self.last_activity` and the fixed `self.timeout_seconds`.  Time is an
abstract `Nat` supplied at each call (`time.time()`). -/

structure ActorState where
  client : Bool
  connected : Bool
  lastActivity : Nat
  timeoutSeconds : Nat
deriving DecidableEq, Repr

/-- Initialization (`ClaudeSessionActor.__init__`): no client, not
connected, activity stamped now, fixed 660 s threshold. -/
def initActor (now : Nat) : ActorState :=
  { client := false, connected := false, lastActivity := now, timeoutSeconds := 660 }

/-- Where, if anywhere, an awaited step of `connect` raises.  The three
awaits are `self.client.connect(None)`, `self.client.query(prompt)` and
`self._collect_response()`, in that order. -/
inductive ConnectFault where
  | ok
  | transportConnectFails
  | promptSendFails
  | collectFails
deriving DecidableEq, Repr

/-- The actor operation `ClaudeSessionActor.connect`, step by step:
assign `self.client`,
open the transport, send the prompt, set `connected = True`, stamp
activity, collect the response.  A `none` second component means the
call raised at the faulted step, leaving the state built so far. -/
def connect (s : ActorState) (now : Nat) (fault : ConnectFault)
    (stream : List SDKMessage) : ActorState × Option TurnResult :=
  let s1 := { s with client := true }
  if fault = .transportConnectFails then (s1, none)
  else if fault = .promptSendFails then (s1, none)
  else
    let s2 := { s1 with connected := true, lastActivity := now }
    if fault = .collectFails then (s2, none)
    else (s2, some (classify stream))

/-- Errors a `query` call can surface.  `notConnected` is the
`RuntimeError("Not connected. Call connect() first.")` guard. -/
inductive QueryError where
  | notConnected
deriving DecidableEq, Repr

/-- The actor operation `ClaudeSessionActor.query`: guard `not self.client or not
self.connected`, then stamp activity, forward the message and classify
the next turn.  In the error branch nothing is forwarded and the state
is untouched. -/
def queryOp (s : ActorState) (now : Nat) (message : String)
    (stream : List SDKMessage) : Except QueryError (ActorState × TurnResult) :=
  if s.client = false ∨ s.connected = false then .error .notConnected
  else .ok ({ s with lastActivity := now }, classify stream)

/-- The actor operation `ClaudeSessionActor.check_timeout`: elapsed idle time versus the
fixed threshold, pure read. -/
def checkTimeout (s : ActorState) (now : Nat) : Bool :=
  s.timeoutSeconds < now - s.lastActivity

/-- The actor operation `ClaudeSessionActor.disconnect`: if a client exists, its own
disconnect is attempted and any failure swallowed (`disconnectRaises` is
therefore ignored); `finally` clears the client, then `connected` is set
false and `{"status": "disconnected"}` returned. -/
def disconnectOp (s : ActorState) (disconnectRaises : Bool) : ActorState × String :=
  ({ s with client := false, connected := false }, "disconnected")

/-- The spec's §3 invariant on actor state: the subprocess client is
non-null iff `connected` is true. -/
def clientConnInv (s : ActorState) : Prop := s.client = s.connected

instance (s : ActorState) : Decidable (clientConnInv s) := by
  unfold clientConnInv; infer_instance


/-! ## Python string primitives

`str.strip()`, `str.lower()` and `int()` are modelled directly over the
character list (ASCII fragment: the unicode-only whitespace characters,
case mappings and digit forms the repository never feeds them are
omitted). -/

/-- Python `str.isspace` characters handled by `str.strip()` (ASCII
fragment). -/
def pyIsSpace (c : Char) : Bool :=
  c == ' ' || c == '\t' || c == '\n' || c == '\r' || c == '\x0b' || c == '\x0c'

/-- Python `str.strip()`: drop leading and trailing whitespace. -/
def pyStrip (s : String) : String :=
  ⟨((s.data.dropWhile pyIsSpace).reverse.dropWhile pyIsSpace).reverse⟩

/-- Python `str.lower()` on one character (ASCII fragment). -/
def pyLowerChar (c : Char) : Char :=
  if 'A' ≤ c ∧ c ≤ 'Z' then Char.ofNat (c.toNat + 32) else c

/-- Python `str.lower()` (ASCII fragment). -/
def pyLower (s : String) : String := ⟨s.data.map pyLowerChar⟩

/-- The value of one decimal digit character, if it is one. -/
def pyDigit? (c : Char) : Option Nat :=
  if '0' ≤ c ∧ c ≤ '9' then some (c.toNat - '0'.toNat) else none

/-- Accumulate decimal digits; `none` on the first non-digit. -/
def pyParseDigits : List Char → Nat → Option Nat
  | [], acc => some acc
  | c :: rest, acc =>
      match pyDigit? c with
      | some d => pyParseDigits rest (acc * 10 + d)
      | none => none

/-- Python `int(str)` (decimal fragment): optional surrounding
whitespace, optional sign, at least one digit; `none` models the
`ValueError`. -/
def pyInt? (s : String) : Option Int :=
  match (pyStrip s).data with
  | '-' :: rest =>
      if rest = [] then none
      else (pyParseDigits rest 0).map fun n => -(n : Int)
  | '+' :: rest =>
      if rest = [] then none
      else (pyParseDigits rest 0).map fun n => (n : Int)
  | t =>
      if t = [] then none
      else (pyParseDigits t 0).map fun n => (n : Int)

/-! ## Configuration (`config.py`, `load_kodosumi_config`)

The environment is a partial map from variable names to strings. -/

/-- The `file_exclusions` entry of `DEFAULT_CONFIG`. -/
def DEFAULT_FILE_EXCLUSIONS : List String :=
  [".py", ".pyc", ".pyo", ".pyd",
   ".json", ".yaml", ".yml", ".toml", ".ini",
   ".egg-info", ".dist-info", "__pycache__",
   ".venv", "venv", "env",
   ".git", ".gitignore", ".gitattributes",
   ".vscode", ".idea", ".pytest_cache",
   ".md", ".txt", ".log"]

/-- The dictionary produced by `load_kodosumi_config`. -/
structure KodosumiConfig where
  completionMode : String
  uploadFiles : Bool
  maxTurns : Int
  fileExclusions : List String
deriving DecidableEq, Repr

/-- The loader `load_kodosumi_config`: defaults overridden from `COMPLETION_MODE`,
`UPLOAD_FILES` and `MAX_TURNS` (an unparsable `MAX_TURNS` keeps the
default 50). -/
def load_kodosumi_config (env : String → Option String) : KodosumiConfig :=
  let cm := pyLower ((env "COMPLETION_MODE").getD "")
  let completionMode :=
    if cm = "auto-complete" ∨ cm = "continuous" then cm else "auto-complete"
  let uf := pyLower ((env "UPLOAD_FILES").getD "")
  let uploadFiles := if uf = "true" ∨ uf = "false" then uf = "true" else true
  let maxTurns :=
    match pyInt? ((env "MAX_TURNS").getD "50") with
    | some n => n
    | none => 50
  { completionMode := completionMode, uploadFiles := uploadFiles,
    maxTurns := maxTurns, fileExclusions := DEFAULT_FILE_EXCLUSIONS }

/-! ## Orchestrator (`query.py`, `run_conversation`)

The actor and the human are oracles: each connect attempt, timeout poll,
human-input pause and query is scripted.  `RayActorError` from a remote
call is the `crash` script entry; it is the only exception kind the
model raises, matching the dedicated `except ray.exceptions.RayActorError`
handler.  The observable output is the returned outcome plus a trace of
connect attempts (with the prompt used), actor teardowns and
human-input pauses. -/

/-- The constant `MAX_MESSAGE_ITERATIONS` (query.py line 28). -/
def MAX_MESSAGE_ITERATIONS : Nat := 50

/-- Outcome of one awaited actor call: the actor crashed
(`ray.exceptions.RayActorError`) or returned a turn result. -/
inductive ActorReply where
  | crash
  | reply (r : TurnResult)
deriving DecidableEq, Repr

/-- What `tracer.lock` yields at a pause: `none` models a missing
response object, otherwise the response dict. -/
structure HumanInput where
  response : String
  cancelled : Bool
deriving DecidableEq, Repr

/-- The scripted environment for one pass of the outer retry loop:
the connect attempt's outcome, and per-iteration timeout polls, human
inputs and query outcomes (indexed by the loop's `iteration` value). -/
structure AttemptOracle where
  connectReply : ActorReply
  timeouts : Nat → Bool
  humans : Nat → Option HumanInput
  queries : Nat → ActorReply

/-- Observable orchestrator events. -/
inductive TraceEv where
  | connectAttempt (prompt : String)
  | cleanup
  | pause (iteration : Nat)
deriving DecidableEq, Repr

/-- Reasons of the terminal summaries built by
`_build_conversation_summary`, one constructor per call site. -/
inductive TermReason where
  | timedOut
  | endedByUser
  | completed
  | emptyResponse
  | maxIterations
  | failedAfterRetries
  | fellThrough
deriving DecidableEq, Repr

/-- The result `run_conversation` returns: the auto-complete path builds
the richer `_finalize_job` result from the final turn's user-facing
messages, every other path a summary with a reason and the iteration
count it reports. -/
inductive ConvOutcome where
  | finalized (iteration : Nat) (messages : List UserMsg)
  | summary (iterations : Nat) (reason : TermReason)
deriving DecidableEq, Repr

/-- How the inner `while iteration < MAX_MESSAGE_ITERATIONS` loop ends:
a `return` with an outcome, or a `RayActorError` escaping to the retry
handler. -/
inductive LoopOut where
  | done (out : ConvOutcome)
  | crashed
deriving DecidableEq, Repr

/-- The termination keywords checked after the pause
(`response_text.lower() in ["done", "exit", "quit", "stop"]`). -/
def TERMINATION_KEYWORDS : List String := ["done", "exit", "quit", "stop"]

/-- The body of the inner conversation loop of `run_conversation`
(query.py lines 384–446), entered with the current turn `result` and the
loop counter.  Per iteration, in source order: increment, timeout poll,
the auto-complete check, the human-input pause, cancellation,
termination keywords, empty response, then `query`.  The second
component lists the iterations at which the human-input pause boundary
was reached.  `fuel` only bounds the structural recursion; the loop
guard `iteration < MAX_MESSAGE_ITERATIONS` is the source's own, and the
fuel-exhausted arm coincides with the guard-false arm (`convLoop` below
supplies enough fuel for the guard to be the one that fires). -/
def convLoopGo (cfg : KodosumiConfig) (a : AttemptOracle) :
    Nat → TurnResult → Nat → LoopOut × List Nat
  | 0, _, iteration => (.done (.summary iteration .maxIterations), [])
  | fuel + 1, result, iteration =>
    if iteration < MAX_MESSAGE_ITERATIONS then
      let it := iteration + 1
      if a.timeouts it then (.done (.summary it .timedOut), [])
      else if result.status = .complete ∧ cfg.completionMode = "auto-complete" then
        (.done (.finalized it result.userMessages), [])
      else
        match a.humans it with
        | none => (.done (.summary it .endedByUser), [it])
        | some input =>
          if input.cancelled then (.done (.summary it .endedByUser), [it])
          else
            let responseText := pyStrip input.response
            if pyLower responseText ∈ TERMINATION_KEYWORDS then
              (.done (.summary it .completed), [it])
            else if responseText = "" then
              (.done (.summary it .emptyResponse), [it])
            else
              match a.queries it with
              | .crash => (.crashed, [it])
              | .reply r =>
                  let next := convLoopGo cfg a fuel r it
                  (next.1, it :: next.2)
    else (.done (.summary iteration .maxIterations), [])

/-- The inner conversation loop from counter `iteration`, with exactly
the fuel its guard can consume. -/
def convLoop (cfg : KodosumiConfig) (a : AttemptOracle) (result : TurnResult)
    (iteration : Nat) : LoopOut × List Nat :=
  convLoopGo cfg a (MAX_MESSAGE_ITERATIONS - iteration) result iteration

/-- The outer `while retry_count <= max_retries` loop of
`run_conversation` (lines 339–465), with `max_retries = 1`.
`actorPresent` models whether `get_actor(execution_id)` finds a live
actor: the crash handler's `cleanup_actor` kills the named actor (the
repository's own test `test_cleanup_removes_actor` asserts `get_actor`
then returns `None`), so every recursive call passes `false` and the
retry takes the `is_first_connect = True` branch.  `attemptIdx` indexes
the per-attempt oracles.  The `fellThrough` arm embeds the
should-be-unreachable fall-through after the loop (lines 467–470). -/
def runConvGo (cfg : KodosumiConfig) (o : Nat → AttemptOracle) (prompt : String) :
    Nat → Bool → Nat → Nat → ConvOutcome × List TraceEv
  | 0, _, _, _ => (.summary 0 .fellThrough, [])
  | fuel + 1, actorPresent, retryCount, attemptIdx =>
    if retryCount ≤ 1 then
      let isFirst := !actorPresent
      let usedPrompt :=
        if isFirst then prompt else "Continuing conversation: " ++ prompt
      match (o attemptIdx).connectReply with
      | .crash =>
          if retryCount + 1 ≤ 1 then
            let next := runConvGo cfg o prompt fuel false (retryCount + 1) (attemptIdx + 1)
            (next.1, .connectAttempt usedPrompt :: .cleanup :: next.2)
          else
            (.summary 0 .failedAfterRetries, [.connectAttempt usedPrompt])
      | .reply result =>
          if result.status = .complete ∧ cfg.completionMode = "auto-complete" then
            (.finalized 1 result.userMessages, [.connectAttempt usedPrompt])
          else
            let loop := convLoop cfg (o attemptIdx) result 0
            match loop.1 with
            | .done out =>
                (out, .connectAttempt usedPrompt :: loop.2.map .pause)
            | .crashed =>
                if retryCount + 1 ≤ 1 then
                  let next := runConvGo cfg o prompt fuel false (retryCount + 1) (attemptIdx + 1)
                  (next.1,
                    .connectAttempt usedPrompt ::
                      (loop.2.map .pause ++ (.cleanup :: next.2)))
                else
                  (.summary 0 .failedAfterRetries,
                    .connectAttempt usedPrompt :: loop.2.map .pause)
    else (.summary 0 .fellThrough, [])

/-- The outer retry loop entered with `retryCount` already at its
current value; the fuel `2 - retryCount` is exactly what the
`retry_count <= max_retries` guard can consume. -/
def runConvAux (cfg : KodosumiConfig) (o : Nat → AttemptOracle) (prompt : String)
    (actorPresent : Bool) (retryCount attemptIdx : Nat) :
    ConvOutcome × List TraceEv :=
  runConvGo cfg o prompt (2 - retryCount) actorPresent retryCount attemptIdx

/-- The function `run_conversation` from the top of the `try` (retry counters zero)
through the `finally` block's unconditional `cleanup_actor`.
`actorPresent` is whether an actor registered under the execution id
already exists when the conversation starts. -/
def runConv (cfg : KodosumiConfig) (o : Nat → AttemptOracle) (prompt : String)
    (actorPresent : Bool) : ConvOutcome × List TraceEv :=
  let r := runConvAux cfg o prompt actorPresent 0 0
  (r.1, r.2 ++ [.cleanup])

/-- Number of connect attempts recorded in a trace. -/
def connectCount (tr : List TraceEv) : Nat :=
  tr.countP fun e => match e with
    | .connectAttempt _ => true
    | _ => false

/-- The iteration count reported by a loop outcome (zero for a crash,
whose summary the retry handler builds itself). -/
def loopOutIters : LoopOut → Nat
  | .done (.finalized it _) => it
  | .done (.summary it _) => it
  | .crashed => 0

/-! ### Concrete fixtures used by counterexamples and witnesses -/

/-- Configuration with the auto-complete completion policy. -/
def cfgAutoComplete : KodosumiConfig :=
  { completionMode := "auto-complete", uploadFiles := true, maxTurns := 50,
    fileExclusions := DEFAULT_FILE_EXCLUSIONS }

/-- Configuration with the continuous completion policy. -/
def cfgContinuous : KodosumiConfig :=
  { completionMode := "continuous", uploadFiles := true, maxTurns := 50,
    fileExclusions := DEFAULT_FILE_EXCLUSIONS }

/-- A turn that ended with the stream exhausted. -/
def readyTurn : TurnResult := ⟨.ready, [⟨"pong"⟩], []⟩

/-- A turn that ended with a terminal `ResultMessage`. -/
def completeTurn : TurnResult := ⟨.complete, [⟨"pong"⟩], []⟩

/-- The actor crashes on the first connect attempt; the second attempt
succeeds with a ready turn and the human then types `done`. -/
def oracleCrashThenOk : Nat → AttemptOracle := fun i =>
  if i = 0 then
    ⟨.crash, fun _ => false, fun _ => some ⟨"done", false⟩, fun _ => .reply readyTurn⟩
  else
    ⟨.reply readyTurn, fun _ => false, fun _ => some ⟨"done", false⟩,
      fun _ => .reply readyTurn⟩

/-- The actor crashes on every connect attempt. -/
def oracleBothCrash : Nat → AttemptOracle := fun _ =>
  ⟨.crash, fun _ => false, fun _ => none, fun _ => .crash⟩

/-- The first connect returns a complete turn. -/
def oracleComplete : Nat → AttemptOracle := fun _ =>
  ⟨.reply completeTurn, fun _ => false, fun _ => none, fun _ => .crash⟩

/-- No timeout, a human who always answers `go`, and queries that always
return a ready turn: the conversation never ends on its own. -/
def relentlessOracle : AttemptOracle :=
  ⟨.reply readyTurn, fun _ => false, fun _ => some ⟨"go", false⟩,
    fun _ => .reply readyTurn⟩

/-! ## Classifier theorems -/

theorem processBlocks_eq (bs : List ContentBlock) :
    ∀ us cs, processBlocks bs us cs = (us ++ blocksUser bs, cs ++ blocksCtx bs) := by
  induction bs with
  | nil => intro us cs; simp [processBlocks, blocksUser, blocksCtx]
  | cons b rest ih =>
      intro us cs
      cases b <;> simp [processBlocks, blocksUser, blocksCtx, ih]

theorem collectResponse_no_result (stream : List SDKMessage)
    (h : SDKMessage.result ∉ stream) :
    ∀ us cs, collectResponse stream us cs =
      ⟨.ready, us ++ expectedUserChannel stream, cs ++ expectedContextChannel stream⟩ := by
  induction stream with
  | nil => intro us cs; simp [collectResponse, expectedUserChannel, expectedContextChannel]
  | cons m rest ih =>
      intro us cs
      have hm : m ≠ SDKMessage.result := fun he => h (he ▸ List.mem_cons_self m rest)
      have hr : SDKMessage.result ∉ rest := fun hx => h (List.mem_cons_of_mem m hx)
      cases m with
      | assistant bs =>
          simp [collectResponse, processBlocks_eq, ih hr,
            expectedUserChannel, expectedContextChannel, List.append_assoc]
      | system st d =>
          simp [collectResponse, ih hr, expectedUserChannel, expectedContextChannel,
            List.append_assoc]
      | result => exact absurd rfl hm
      | other =>
          simp [collectResponse, ih hr, expectedUserChannel, expectedContextChannel]

theorem collectResponse_terminal (pre : List SDKMessage) (post : List SDKMessage)
    (h : SDKMessage.result ∉ pre) :
    ∀ us cs, collectResponse (pre ++ SDKMessage.result :: post) us cs =
      ⟨.complete, us ++ expectedUserChannel pre, cs ++ expectedContextChannel pre⟩ := by
  induction pre with
  | nil =>
      intro us cs
      simp [collectResponse, expectedUserChannel, expectedContextChannel]
  | cons m rest ih =>
      intro us cs
      have hm : m ≠ SDKMessage.result := fun he => h (he ▸ List.mem_cons_self m rest)
      have hr : SDKMessage.result ∉ rest := fun hx => h (List.mem_cons_of_mem m hx)
      cases m with
      | assistant bs =>
          simp [collectResponse, processBlocks_eq, ih hr,
            expectedUserChannel, expectedContextChannel, List.append_assoc]
      | system st d =>
          simp [collectResponse, ih hr, expectedUserChannel, expectedContextChannel,
            List.append_assoc]
      | result => exact absurd rfl hm
      | other =>
          simp [collectResponse, ih hr, expectedUserChannel, expectedContextChannel]

/-- C5: a stream without a terminal event classifies as `ready`, with every
recognized event in its designated channel, each channel in source order. -/
theorem classify_no_terminal (stream : List SDKMessage)
    (h : SDKMessage.result ∉ stream) :
    classify stream =
      ⟨.ready, expectedUserChannel stream, expectedContextChannel stream⟩ := by
  simpa [classify] using collectResponse_no_result stream h [] []

/-- C5 witness. -/
theorem classify_no_terminal_witness :
    classify [SDKMessage.assistant [ContentBlock.text "hi",
        ContentBlock.thinking "t" "sig"],
      SDKMessage.system "init" "d"] =
      ⟨.ready, [⟨"hi"⟩], [.thinking "t" "sig", .system "init" "d"]⟩ := by
  have h : SDKMessage.result ∉ [SDKMessage.assistant [ContentBlock.text "hi",
      ContentBlock.thinking "t" "sig"], SDKMessage.system "init" "d"] := by decide
  simpa using classify_no_terminal _ h

/-- C2: a stream whose first terminal event sits after prefix `pre`
classifies as `complete`; the terminal event enters neither channel and
no event after it contributes — both channels equal those of the prefix
alone. -/
theorem classify_terminal (pre post : List SDKMessage)
    (h : SDKMessage.result ∉ pre) :
    classify (pre ++ SDKMessage.result :: post) =
      ⟨.complete, (classify pre).userMessages, (classify pre).contextMessages⟩ := by
  have h1 := collectResponse_terminal pre post h [] []
  have h2 := collectResponse_no_result pre h [] []
  simp [classify, h1, h2]

/-- C2 witness: a terminal event at position 1, followed by events that
are ignored. -/
theorem classify_terminal_witness :
    classify [SDKMessage.assistant [ContentBlock.text "a"], SDKMessage.result,
        SDKMessage.assistant [ContentBlock.text "late"]] =
      ⟨.complete, [⟨"a"⟩], []⟩ := by
  have h : SDKMessage.result ∉ [SDKMessage.assistant [ContentBlock.text "a"]] := by
    decide
  simpa using
    classify_terminal [SDKMessage.assistant [ContentBlock.text "a"]]
      [SDKMessage.assistant [ContentBlock.text "late"]] h

theorem collectResponse_drop_other (pre post : List SDKMessage) :
    ∀ us cs, collectResponse (pre ++ SDKMessage.other :: post) us cs =
      collectResponse (pre ++ post) us cs := by
  induction pre with
  | nil => intro us cs; simp [collectResponse]
  | cons m rest ih =>
      intro us cs
      cases m <;> simp [collectResponse, ih]

theorem processBlocks_drop_other (bs1 bs2 : List ContentBlock) :
    ∀ us cs, processBlocks (bs1 ++ ContentBlock.otherBlock :: bs2) us cs =
      processBlocks (bs1 ++ bs2) us cs := by
  induction bs1 with
  | nil => intro us cs; simp [processBlocks]
  | cons b rest ih =>
      intro us cs
      cases b <;> simp [processBlocks, ih]

/-- C10: an event of unrecognized kind — a message type outside the
`isinstance` branches, or a content block outside the four block
branches — is added to neither channel, and classification continues
with the rest of the stream exactly as if the event were absent. -/
theorem classify_drops_unrecognized (pre post : List SDKMessage)
    (bs1 bs2 : List ContentBlock) (us : List UserMsg) (cs : List CtxMsg) :
    classify (pre ++ SDKMessage.other :: post) = classify (pre ++ post) ∧
    processBlocks (bs1 ++ ContentBlock.otherBlock :: bs2) us cs =
      processBlocks (bs1 ++ bs2) us cs := by
  exact ⟨by simp [classify, collectResponse_drop_other],
    processBlocks_drop_other bs1 bs2 us cs⟩

/-! ## Actor theorems -/

/-- C4 counterexample: a connect that fails while opening the transport
leaves `client` non-null with `connected = false`, so the claimed
invariant fails at that operation boundary. -/
theorem clientConnInv_counterexample :
    ¬ clientConnInv (connect (initActor 0) 5 ConnectFault.transportConnectFails []).1 := by
  decide

/-- C4 (amended): the client/connected invariant holds after
initialization, after every connect that reaches the `connected = True`
assignment (a successful connect, or one failing only while collecting
the response), after every successful query, and unconditionally after
disconnect.  A connect failing at the transport-open or prompt-send step
is the sole exception. -/
theorem clientConnInv_boundaries (s : ActorState) (now : Nat)
    (stream : List SDKMessage) (fault : ConnectFault)
    (hf : fault ≠ .transportConnectFails ∧ fault ≠ .promptSendFails) :
    clientConnInv (initActor now) ∧
    clientConnInv (connect s now fault stream).1 ∧
    (∀ message s' r, queryOp s now message stream = .ok (s', r) →
      clientConnInv s → clientConnInv s') ∧
    (∀ b, clientConnInv (disconnectOp s b).1) := by
  obtain ⟨h1, h2⟩ := hf
  refine ⟨by simp [clientConnInv, initActor], ?_, ?_, ?_⟩
  · simp [connect, h1, h2]
    split <;> simp [clientConnInv]
  · intro message s' r hq hs
    unfold queryOp at hq
    split at hq
    · exact absurd hq (by simp)
    · simp only [Except.ok.injEq, Prod.mk.injEq] at hq
      obtain ⟨hs', _⟩ := hq
      unfold clientConnInv at hs ⊢
      rw [← hs']
      exact hs
  · intro b; simp [clientConnInv, disconnectOp]

/-- C4 amended witness. -/
theorem clientConnInv_boundaries_witness :
    (ConnectFault.ok ≠ ConnectFault.transportConnectFails ∧
      ConnectFault.ok ≠ ConnectFault.promptSendFails) ∧
    (clientConnInv (initActor 3) ∧
      clientConnInv (connect (initActor 3) 4 ConnectFault.ok []).1 ∧
      (∀ message s' r, queryOp (initActor 3) 4 message [] = .ok (s', r) →
        clientConnInv (initActor 3) → clientConnInv s') ∧
      (∀ b, clientConnInv (disconnectOp (initActor 3) b).1)) :=
  ⟨by decide, clientConnInv_boundaries (initActor 3) 4 [] ConnectFault.ok (by decide)⟩

/-- C6: whenever `connected` is false the query guard fires — the call
fails with the not-connected error and no message is forwarded (the
error branch returns before touching the client); moreover every state
produced by `disconnect` has `connected = false`, so the same holds
after any number of disconnect calls. -/
theorem query_requires_connected (s : ActorState) (now : Nat)
    (message : String) (stream : List SDKMessage)
    (h : s.connected = false) :
    queryOp s now message stream = .error .notConnected ∧
    (∀ (s' : ActorState) (b : Bool), (disconnectOp s' b).1.connected = false) := by
  refine ⟨?_, fun s' b => by simp [disconnectOp]⟩
  simp [queryOp, h]

/-- C6 witness: a freshly initialized actor, and one disconnected after a
successful connect, both reject `query`. -/
theorem query_requires_connected_witness :
    ((initActor 0).connected = false ∧
      queryOp (initActor 0) 1 "hello" [] = .error .notConnected) ∧
    ((disconnectOp (connect (initActor 0) 1 ConnectFault.ok []).1 false).1.connected
        = false ∧
      queryOp (disconnectOp (connect (initActor 0) 1 ConnectFault.ok []).1 false).1
        2 "again" [] = .error .notConnected) :=
  ⟨⟨by decide, (query_requires_connected (initActor 0) 1 "hello" [] (by decide)).1⟩,
   ⟨by decide,
    (query_requires_connected
      (disconnectOp (connect (initActor 0) 1 ConnectFault.ok []).1 false).1
      2 "again" [] (by decide)).1⟩⟩

/-! ### Orchestrator theorems -/

/-- C1 counterexample: the first connect attempt crashes and is retried;
the trace shows the dead actor torn down (`cleanup`) and a second
connect attempt issued — but with the original prompt `"hi"`, and the
reconnection prompt `"Continuing conversation: hi"` appears nowhere:
the crash handler's `cleanup_actor` kills the named actor, so the retry
pass finds no actor, creates a fresh one and takes the
`is_first_connect` branch. -/
theorem retry_prompt_counterexample :
    runConv cfgContinuous oracleCrashThenOk "hi" false =
      (.summary 1 .completed,
        [.connectAttempt "hi", .cleanup, .connectAttempt "hi", .pause 1, .cleanup]) ∧
    TraceEv.connectAttempt ("Continuing conversation: " ++ "hi") ∉
      (runConv cfgContinuous oracleCrashThenOk "hi" false).2 := by
  decide

/-- C1 (amended): after an isolation-unit failure that is retried, the
orchestrator tears down the dead actor and loops back to connecting;
because the teardown removed the actor from the registry, the retry pass
creates a fresh actor and its connect attempt uses the original prompt.
The distinct reconnection prompt is issued exactly when an actor is
still registered when a pass begins. -/
theorem retry_teardown_and_prompt (cfg : KodosumiConfig)
    (o : Nat → AttemptOracle) (prompt : String)
    (h0 : (o 0).connectReply = .crash) :
    (runConv cfg o prompt false).2 =
      .connectAttempt prompt :: .cleanup ::
        ((runConvAux cfg o prompt false 1 1).2 ++ [.cleanup]) ∧
    (∀ k, (runConvAux cfg o prompt false 1 k).2.head? =
      some (.connectAttempt prompt)) ∧
    (∀ k, (runConvAux cfg o prompt true 1 k).2.head? =
      some (.connectAttempt ("Continuing conversation: " ++ prompt))) := by
  refine ⟨?_, ?_, ?_⟩
  · simp [runConv, runConvAux, runConvGo, h0]
  · intro k
    cases hc : (o k).connectReply with
    | crash => simp [runConvAux, runConvGo, hc]
    | reply result =>
        by_cases hdone :
            result.status = .complete ∧ cfg.completionMode = "auto-complete"
        · simp [runConvAux, runConvGo, hc, hdone]
        · cases hl : (convLoop cfg (o k) result 0).1 with
          | done out => simp [runConvAux, runConvGo, hc, hdone, hl]
          | crashed => simp [runConvAux, runConvGo, hc, hdone, hl]
  · intro k
    cases hc : (o k).connectReply with
    | crash => simp [runConvAux, runConvGo, hc]
    | reply result =>
        by_cases hdone :
            result.status = .complete ∧ cfg.completionMode = "auto-complete"
        · simp [runConvAux, runConvGo, hc, hdone]
        · cases hl : (convLoop cfg (o k) result 0).1 with
          | done out => simp [runConvAux, runConvGo, hc, hdone, hl]
          | crashed => simp [runConvAux, runConvGo, hc, hdone, hl]

/-- C1 amended witness. -/
theorem retry_teardown_and_prompt_witness :
    (oracleCrashThenOk 0).connectReply = ActorReply.crash ∧
    ((runConv cfgContinuous oracleCrashThenOk "hi" false).2 =
      .connectAttempt "hi" :: .cleanup ::
        ((runConvAux cfgContinuous oracleCrashThenOk "hi" false 1 1).2 ++ [.cleanup]) ∧
     (∀ k, (runConvAux cfgContinuous oracleCrashThenOk "hi" false 1 k).2.head? =
       some (.connectAttempt "hi")) ∧
     (∀ k, (runConvAux cfgContinuous oracleCrashThenOk "hi" true 1 k).2.head? =
       some (.connectAttempt ("Continuing conversation: " ++ "hi")))) :=
  ⟨rfl, retry_teardown_and_prompt cfgContinuous oracleCrashThenOk "hi" rfl⟩

/-- C3: a complete turn under the auto-complete policy skips the
human-input pause boundary and finalizes with the richer result built
from that turn's user-facing messages.  On the initial connect this
happens before the loop, finalizing at iteration 1 with no pause event
in the whole trace; after any later turn the loop step finalizes at the
incremented iteration with no pause recorded for that turn. -/
theorem auto_complete_skips_pause (cfg : KodosumiConfig)
    (o : Nat → AttemptOracle) (prompt : String) (r : TurnResult)
    (hc : (o 0).connectReply = .reply r) (hs : r.status = .complete)
    (hm : cfg.completionMode = "auto-complete") :
    runConv cfg o prompt false =
      (.finalized 1 r.userMessages, [.connectAttempt prompt, .cleanup]) ∧
    (∀ (a : AttemptOracle) (it : Nat), it < MAX_MESSAGE_ITERATIONS →
      a.timeouts (it + 1) = false →
      convLoop cfg a r it = (.done (.finalized (it + 1) r.userMessages), [])) := by
  constructor
  · simp [runConv, runConvAux, runConvGo, hc, hs, hm]
  · intro a it hit htO
    obtain ⟨f, hf⟩ : ∃ f, MAX_MESSAGE_ITERATIONS - it = f + 1 :=
      ⟨MAX_MESSAGE_ITERATIONS - it - 1, by omega⟩
    simp [convLoop, hf, convLoopGo, hit, htO, hs, hm]

/-- C3 witness. -/
theorem auto_complete_skips_pause_witness :
    ((oracleComplete 0).connectReply = ActorReply.reply completeTurn ∧
      completeTurn.status = TurnStatus.complete ∧
      cfgAutoComplete.completionMode = "auto-complete") ∧
    runConv cfgAutoComplete oracleComplete "ping" false =
      (.finalized 1 completeTurn.userMessages,
        [.connectAttempt "ping", .cleanup]) :=
  ⟨⟨rfl, rfl, rfl⟩,
    (auto_complete_skips_pause cfgAutoComplete oracleComplete "ping" completeTurn
      rfl rfl rfl).1⟩

theorem connectCount_nil : connectCount [] = 0 := rfl

theorem connectCount_cons_connect (p : String) (tr : List TraceEv) :
    connectCount (.connectAttempt p :: tr) = connectCount tr + 1 := by
  simp [connectCount, List.countP_cons]

theorem connectCount_cons_cleanup (tr : List TraceEv) :
    connectCount (.cleanup :: tr) = connectCount tr := by
  simp [connectCount, List.countP_cons]

theorem connectCount_append (a b : List TraceEv) :
    connectCount (a ++ b) = connectCount a + connectCount b := by
  simp [connectCount, List.countP_append]

theorem connectCount_pause_map (l : List Nat) :
    connectCount (l.map .pause) = 0 := by
  simp [connectCount, List.countP_map, Function.comp]

theorem connectCount_runConvGo_le (cfg : KodosumiConfig)
    (o : Nat → AttemptOracle) (prompt : String) :
    ∀ fuel ap rc k, connectCount (runConvGo cfg o prompt fuel ap rc k).2 ≤ fuel := by
  intro fuel
  induction fuel with
  | zero => intro ap rc k; simp [runConvGo, connectCount]
  | succ f ih =>
      intro ap rc k
      match rc with
      | 0 =>
          cases hc : (o k).connectReply with
          | crash =>
              have := ih false 1 (k + 1)
              simp [runConvGo, hc, connectCount_cons_connect, connectCount_cons_cleanup]
              omega
          | reply result =>
              by_cases hdone :
                  result.status = .complete ∧ cfg.completionMode = "auto-complete"
              · simp [runConvGo, hc, hdone, connectCount_cons_connect, connectCount_nil]
              · cases hl : (convLoop cfg (o k) result 0).1 with
                | done out =>
                    simp [runConvGo, hc, hdone, hl, connectCount_cons_connect,
                      connectCount_pause_map]
                | crashed =>
                    have := ih false 1 (k + 1)
                    simp [runConvGo, hc, hdone, hl, connectCount_cons_connect,
                      connectCount_append, connectCount_cons_cleanup,
                      connectCount_pause_map]
                    omega
      | 1 =>
          cases hc : (o k).connectReply with
          | crash =>
              simp [runConvGo, hc, connectCount_cons_connect, connectCount_nil]
          | reply result =>
              by_cases hdone :
                  result.status = .complete ∧ cfg.completionMode = "auto-complete"
              · simp [runConvGo, hc, hdone, connectCount_cons_connect, connectCount_nil]
              · cases hl : (convLoop cfg (o k) result 0).1 with
                | done out =>
                    simp [runConvGo, hc, hdone, hl, connectCount_cons_connect,
                      connectCount_pause_map]
                | crashed =>
                    simp [runConvGo, hc, hdone, hl, connectCount_cons_connect,
                      connectCount_pause_map]
      | (n + 2) =>
          simp [runConvGo, connectCount]

/-- C7: every conversation issues at most `1 + max_retries = 2` connect
attempts, and when the actor crashes on both the original attempt and
its single retry the orchestrator returns the failed-after-retries
summary, its trace holding exactly the two attempts — never a third. -/
theorem connect_attempts_bounded (cfg : KodosumiConfig)
    (o : Nat → AttemptOracle) (prompt : String)
    (h0 : (o 0).connectReply = .crash) (h1 : (o 1).connectReply = .crash) :
    (∀ (o' : Nat → AttemptOracle) (ap : Bool),
      connectCount (runConv cfg o' prompt ap).2 ≤ 2) ∧
    runConv cfg o prompt false =
      (.summary 0 .failedAfterRetries,
        [.connectAttempt prompt, .cleanup, .connectAttempt prompt, .cleanup]) := by
  constructor
  · intro o' ap
    have := connectCount_runConvGo_le cfg o' prompt 2 ap 0 0
    simp only [runConv, runConvAux, connectCount, List.countP_append] at this ⊢
    simp [List.countP_cons]
    omega
  · simp [runConv, runConvAux, runConvGo, h0, h1]

/-- C7 witness. -/
theorem connect_attempts_bounded_witness :
    ((oracleBothCrash 0).connectReply = ActorReply.crash ∧
      (oracleBothCrash 1).connectReply = ActorReply.crash) ∧
    runConv cfgContinuous oracleBothCrash "hi" false =
      (.summary 0 .failedAfterRetries,
        [.connectAttempt "hi", .cleanup, .connectAttempt "hi", .cleanup]) :=
  ⟨⟨rfl, rfl⟩,
    (connect_attempts_bounded cfgContinuous oracleBothCrash "hi" rfl rfl).2⟩

theorem convLoopGo_iters_le (cfg : KodosumiConfig) (a : AttemptOracle) :
    ∀ fuel r it, it + fuel ≤ MAX_MESSAGE_ITERATIONS →
      loopOutIters (convLoopGo cfg a fuel r it).1 ≤ MAX_MESSAGE_ITERATIONS := by
  intro fuel
  induction fuel with
  | zero => intro r it h; simpa [convLoopGo, loopOutIters] using h
  | succ f ih =>
      intro r it h
      simp only [convLoopGo]
      split
      · split
        · simp [loopOutIters]; omega
        · split
          · simp [loopOutIters]; omega
          · split
            · simp [loopOutIters]; omega
            · split
              · simp [loopOutIters]; omega
              · split
                · simp [loopOutIters]; omega
                · split
                  · simp [loopOutIters]; omega
                  · split
                    · simp [loopOutIters]
                    · exact ih _ (it + 1) (by omega)
      · simp [loopOutIters]; omega

/-- C8: the conversation loop never runs past the fixed cap — every
outcome reports at most `MAX_MESSAGE_ITERATIONS = 50` iterations, a loop
entered at the cap terminates at once with the max-iterations reason,
and a conversation whose environment never ends it reaches exactly the
cap, pausing once per iteration, and stops there. -/
theorem iteration_cap (cfg : KodosumiConfig) (a : AttemptOracle)
    (r : TurnResult) (it : Nat) (h : it ≤ MAX_MESSAGE_ITERATIONS) :
    loopOutIters (convLoop cfg a r it).1 ≤ MAX_MESSAGE_ITERATIONS ∧
    convLoop cfg a r MAX_MESSAGE_ITERATIONS =
      (.done (.summary MAX_MESSAGE_ITERATIONS .maxIterations), []) ∧
    MAX_MESSAGE_ITERATIONS = 50 ∧
    convLoop cfgAutoComplete relentlessOracle readyTurn 0 =
      (.done (.summary 50 .maxIterations),
        (List.range 50).map (· + 1)) := by
  refine ⟨?_, ?_, rfl, by decide⟩
  · exact convLoopGo_iters_le cfg a _ r it (by omega)
  · simp [convLoop, convLoopGo]

/-- C8 witness. -/
theorem iteration_cap_witness :
    (0 : Nat) ≤ MAX_MESSAGE_ITERATIONS ∧
    (loopOutIters (convLoop cfgContinuous relentlessOracle readyTurn 0).1 ≤
        MAX_MESSAGE_ITERATIONS ∧
      convLoop cfgContinuous relentlessOracle readyTurn MAX_MESSAGE_ITERATIONS =
        (.done (.summary MAX_MESSAGE_ITERATIONS .maxIterations), []) ∧
      MAX_MESSAGE_ITERATIONS = 50 ∧
      convLoop cfgAutoComplete relentlessOracle readyTurn 0 =
        (.done (.summary 50 .maxIterations), (List.range 50).map (· + 1))) :=
  ⟨Nat.zero_le _,
    iteration_cap cfgContinuous relentlessOracle readyTurn 0 (Nat.zero_le _)⟩

theorem convLoopGo_congr (cfg cfg' : KodosumiConfig) (a : AttemptOracle)
    (h : cfg.completionMode = cfg'.completionMode) :
    ∀ fuel r it, convLoopGo cfg a fuel r it = convLoopGo cfg' a fuel r it := by
  intro fuel
  induction fuel with
  | zero => intro r it; simp [convLoopGo]
  | succ f ih => intro r it; simp [convLoopGo, h, ih]

theorem runConvGo_congr (cfg cfg' : KodosumiConfig) (o : Nat → AttemptOracle)
    (prompt : String) (h : cfg.completionMode = cfg'.completionMode) :
    ∀ fuel ap rc k, runConvGo cfg o prompt fuel ap rc k =
      runConvGo cfg' o prompt fuel ap rc k := by
  intro fuel
  induction fuel with
  | zero => intro ap rc k; simp [runConvGo]
  | succ f ih =>
      intro ap rc k
      simp [runConvGo, h, ih, convLoop, convLoopGo_congr cfg cfg' (o k) h]

/-- C9: the loop cap is the hardcoded `MAX_MESSAGE_ITERATIONS = 50`;
the configuration loader does read `MAX_TURNS` into `max_turns`, but the
orchestrator's behaviour — outcome and trace, and in particular the cap
at which the loop stops — is identical under any `max_turns` value. -/
theorem max_turns_independent (cfg : KodosumiConfig) (n : Int)
    (o : Nat → AttemptOracle) (prompt : String) (ap : Bool) :
    runConv { cfg with maxTurns := n } o prompt ap = runConv cfg o prompt ap ∧
    MAX_MESSAGE_ITERATIONS = 50 ∧
    (load_kodosumi_config
      (fun k => if k = "MAX_TURNS" then some "7" else none)).maxTurns = 7 ∧
    (∀ (a : AttemptOracle) (r : TurnResult),
      convLoop { cfg with maxTurns := n } a r MAX_MESSAGE_ITERATIONS =
        (.done (.summary MAX_MESSAGE_ITERATIONS .maxIterations), [])) := by
  refine ⟨?_, rfl, by decide, ?_⟩
  · simp [runConv, runConvAux, runConvGo_congr { cfg with maxTurns := n } cfg o prompt rfl]
  · intro a r; simp [convLoop, convLoopGo]

end HitlTemplate
